import Mathlib

/-!
Shallow embedding of the remote-processor lifecycle and firmware-loading
framework in drivers/remoteproc/remoteproc.c (with the data layout from
the remoteproc header).

Modelling conventions:
* machine integers are `Nat` with an explicit `% 2 ^ w` where C overflow or
  truncation matters (u64 arithmetic in the address comparison, the
  `phys_addr_t` store);
* the firmware image is a list of byte values, read little-endian exactly as
  the packed structs `fw_header`, `fw_section` and `fw_resource` lay them out
  (`sizeof(fw_header) = 12`, `sizeof(fw_section) = 16`,
  `sizeof(fw_resource) = 76`);
* external collaborators (ioremap_nocache, the backend start/stop ops,
  try_module_get, request_firmware_nowait) are oracles in an `Env` record;
* the mutable fields of `struct rproc` are threaded explicitly; mutex and
  completion waits always succeed (single-thread interleaving of the C
  critical sections); `completion_done` records whether
  `complete_all(&rproc->firmware_loading_complete)` has run;
* `owner_refs` counts the references currently held on the backend module
  (`try_module_get` / `module_put`);
* the two C while-loops are written with an explicit iteration bound that is
  passed the loop's own byte counter: every iteration consumes at least one
  unit of the counter, so the bound is never reached before the loop's real
  exit test fires, and the bound-exhausted branch returns the same value as
  the loop exit.  `rscLoop_fuel` below proves the bound irrelevant.
-/

/-- Linux errno EINVAL (22); returned as -EINVAL. -/
def EINVAL : Int := 22

/-- Linux errno ENOMEM (12); returned as -ENOMEM. -/
def ENOMEM : Int := 12

/-- Linux errno EBUSY (16); returned as -EBUSY. -/
def EBUSY : Int := 16

/-- enum rproc_state from the remoteproc header. -/
inductive RState where
  | offline
  | suspended
  | running
  | loading
  | crashed
  deriving DecidableEq

/-- struct rproc_mem_entry: one row of the da-to-pa address map. -/
structure MemEntry where
  da : Nat
  pa : Nat
  size : Nat
  deriving DecidableEq

/-- The mutable and configuration fields of struct rproc that the framework
reads or writes (name, memory_maps, firmware, count, state, trace buffers,
completion flag), plus the number of references held on the owner module. -/
structure Rproc where
  name : String
  memory_maps : Option (List MemEntry)
  firmware : Option String
  count : Nat
  state : RState
  trace_buf0 : Option Nat
  trace_buf1 : Option Nat
  trace_len0 : Nat
  trace_len1 : Nat
  completion_done : Bool
  owner_refs : Int
  deriving DecidableEq

/-- Oracles for the external collaborators: `ioremap pa len` is
ioremap_nocache (`none` = NULL), `start bootaddr` and `stop` are the backend
v-table results, `module_get_ok` is try_module_get, `request_fw_ok` is
whether request_firmware_nowait returns 0. -/
structure Env where
  ioremap : Nat → Nat → Option Nat
  start : Nat → Int
  stop : Int
  module_get_ok : Bool
  request_fw_ok : Bool

/-- Result of rproc_get: the updated record and whether a non-NULL handle
was returned. -/
structure GetResult where
  rp : Rproc
  handle : Bool
  deriving DecidableEq

/-- Result of rproc_put: the updated record and whether module_put ran. -/
structure PutResult where
  rp : Rproc
  module_released : Bool
  deriving DecidableEq

/-- Little-endian value of the first `k` bytes of a byte list (bytes past
the end of the list read as 0; each byte is taken mod 256). -/
def readLE : Nat → List Nat → Nat
  | 0, _ => 0
  | _ + 1, [] => 0
  | k + 1, b :: bs => b % 256 + 256 * readLE k bs

/-- Little-endian encoding of a u32 (an encoder for building concrete
firmware images in the container format of the header doc). -/
def u32le (n : Nat) : List Nat :=
  [n % 256, n / 2 ^ 8 % 256, n / 2 ^ 16 % 256, n / 2 ^ 24 % 256]

/-- Little-endian encoding of a u64. -/
def u64le (n : Nat) : List Nat :=
  u32le (n % 2 ^ 32) ++ u32le (n / 2 ^ 32)

/-- struct fw_resource, fields as read from the packed 76-byte layout
(u32 type, u64 da, u64 pa, u32 len, u32 flags; the 48-byte name field is
only ever printed, so it is not carried). -/
structure FwResource where
  rtype : Nat
  da : Nat
  pa : Nat
  len : Nat
  flags : Nat
  deriving DecidableEq

/-- Parse one fw_resource from the front of a byte list. -/
def parseRsc (bytes : List Nat) : FwResource :=
  { rtype := readLE 4 bytes
    da := readLE 8 (bytes.drop 4)
    pa := readLE 8 (bytes.drop 12)
    len := readLE 4 (bytes.drop 20)
    flags := readLE 4 (bytes.drop 24) }

/-- Encode one fw_resource as its 76 packed bytes (name NUL-padded). -/
def encodeRsc (t da pa len flags : Nat) : List Nat :=
  u32le t ++ u64le da ++ u64le pa ++ u32le len ++ u32le flags ++
    List.replicate 48 0

/-- The for-loop of rproc_da_to_pa: scan the map rows in order, stopping at
a zero-size sentinel row (the end of the list stands for the sentinel).  A
row matches when `da >= me->da && da < me->da + me->size` (u64 arithmetic);
the result `me->pa + (da - me->da)` is stored into a `phys_addr_t`
(32 bits on this platform). -/
def daLookup : List MemEntry → Nat → Option Nat
  | [], _ => none
  | me :: rest, da =>
    if me.size = 0 then none
    else if me.da ≤ da ∧ da < (me.da + me.size) % 2 ^ 64 then
      some ((me.pa + (da - me.da)) % 2 ^ 32)
    else daLookup rest da

/-- rproc_da_to_pa: with no map (`!maps`), fail iff
`da > (phys_addr_t)(~0U)` (i.e. da does not fit in 32 bits), else return da;
with a map, scan it.  `none` is the -EINVAL outcome, `some pa` success. -/
def rproc_da_to_pa : Option (List MemEntry) → Nat → Option Nat
  | none, da => if 4294967295 < da then none else some da
  | some maps, da => daLookup maps da

/-- Spec-side translation, transcribed from the specification text of the
Address Translator: return `entry.pa + (da - entry.da)` for the first entry
with `entry.da ≤ da < entry.da + entry.size` (exact arithmetic), else fail. -/
def translate_spec (maps : List MemEntry) (da : Nat) : Option Nat :=
  (maps.find? fun e => decide (e.da ≤ da) && decide (da < e.da + e.size)).map
    fun e => e.pa + (da - e.da)

/-- rproc_handle_trace_rsc: translate rsc->da; if both trace slots are
already bound return -EBUSY; ioremap the buffer (NULL gives -ENOMEM); bind
it as trace0 if that slot is free, else as trace1. -/
def rproc_handle_trace_rsc (env : Env) (rp : Rproc) (rsc : FwResource) :
    Int × Rproc :=
  match rproc_da_to_pa rp.memory_maps rsc.da with
  | none => (-EINVAL, rp)
  | some pa =>
    if rp.trace_buf0.isSome ∧ rp.trace_buf1.isSome then (-EBUSY, rp)
    else
      match env.ioremap pa rsc.len with
      | none => (-ENOMEM, rp)
      | some ptr =>
        if rp.trace_buf0.isNone then
          (0, { rp with trace_buf0 := some ptr, trace_len0 := rsc.len })
        else
          (0, { rp with trace_buf1 := some ptr, trace_len1 := rsc.len })

/-- The while-loop of rproc_handle_resources: while `len >= sizeof(*rsc)`
(76), dispatch the entry at the front — RSC_TRACE (4) to the trace handler,
RSC_BOOTADDR (5) overwrites the recorded boot address (warning only when one
was already set), anything else is ignored — then break if ret is nonzero,
else advance by one entry.  The first argument is the iteration bound, fed
with `len` at entry; the trailing iounmap-on-failure in the C code does not
change any modelled field (the trace_buf pointers are not cleared there). -/
def handleRscLoop : Nat → Env → Rproc → List Nat → Nat → Nat →
    Int × Rproc × Nat
  | 0, _, rp, _, _, bootaddr => (0, rp, bootaddr)
  | fuel + 1, env, rp, bytes, len, bootaddr =>
    if len < 76 then (0, rp, bootaddr)
    else
      let rsc := parseRsc bytes
      let step : Int × Rproc × Nat :=
        if rsc.rtype = 4 then
          let tr := rproc_handle_trace_rsc env rp rsc
          (tr.1, tr.2, bootaddr)
        else if rsc.rtype = 5 then (0, rp, rsc.da)
        else (0, rp, bootaddr)
      if step.1 ≠ 0 then step
      else handleRscLoop fuel env step.2.1 (bytes.drop 76) (len - 76) step.2.2

/-- rproc_handle_resources over the bytes of a resource section. -/
def rproc_handle_resources (env : Env) (rp : Rproc) (bytes : List Nat)
    (len : Nat) (bootaddr : Nat) : Int × Rproc × Nat :=
  handleRscLoop len env rp bytes len bootaddr

/-- The while-loop of rproc_process_fw: while `left > sizeof(struct
fw_section)` (16), read the section header, subtract the header size from
`left`, fail -EINVAL when `left < section->len` (truncated image), translate
da, ioremap (NULL gives -ENOMEM), copy the payload, run the resource
interpreter on it when the type is FW_RESOURCE (0), break on error, else
advance past the payload.  The first argument is the iteration bound, fed
with `left.toNat` at entry. -/
def processFwLoop : Nat → Env → Rproc → List Nat → Int → Nat →
    Int × Rproc × Nat
  | 0, _, rp, _, _, bootaddr => (0, rp, bootaddr)
  | fuel + 1, env, rp, bytes, left, bootaddr =>
    if 16 < left then
      let stype := readLE 4 bytes
      let da := readLE 8 (bytes.drop 4)
      let len := readLE 4 (bytes.drop 12)
      let left1 := left - 16
      if left1 < (len : Int) then (-EINVAL, rp, bootaddr)
      else
        match rproc_da_to_pa rp.memory_maps da with
        | none => (-EINVAL, rp, bootaddr)
        | some pa =>
          match env.ioremap pa len with
          | none => (-ENOMEM, rp, bootaddr)
          | some _ptr =>
            let step : Int × Rproc × Nat :=
              if stype = 0 then
                rproc_handle_resources env rp ((bytes.drop 16).take len) len
                  bootaddr
              else (0, rp, bootaddr)
            if step.1 ≠ 0 then step
            else
              processFwLoop fuel env step.2.1 (bytes.drop (16 + len))
                (left1 - (len : Int)) step.2.2
    else (0, rp, bootaddr)

/-- rproc_process_fw over the section area of the image. -/
def rproc_process_fw (env : Env) (rp : Rproc) (bytes : List Nat)
    (left : Int) (bootaddr : Nat) : Int × Rproc × Nat :=
  processFwLoop left.toNat env rp bytes left bootaddr

/-- rproc_start: call the backend start op; on success set the state to
RPROC_RUNNING, on failure log and leave the record as it was. -/
def rproc_start (env : Env) (rp : Rproc) (bootaddr : Nat) : Rproc :=
  if env.start bootaddr = 0 then { rp with state := RState.running } else rp

/-- rproc_load_fw, the request_firmware_nowait callback: a NULL blob only
signals completion; otherwise check `size >= sizeof(fw_header)` and the
RPRC magic, process the sections starting at `header + header_len` with
`left = size - sizeof(fw_header) - header_len`, call rproc_start on success,
and signal completion on every path. -/
def rproc_load_fw (env : Env) (fw : Option (List Nat)) (rp : Rproc) :
    Rproc :=
  match fw with
  | none => { rp with completion_done := true }
  | some data =>
    let rp1 :=
      if data.length < 12 then rp
      else if data.take 4 ≠ [82, 80, 82, 67] then rp
      else
        let header_len := readLE 4 (data.drop 8)
        let res := rproc_process_fw env rp (data.drop (12 + header_len))
          ((data.length : Int) - 12 - (header_len : Int)) 0
        if res.1 ≠ 0 then res.2.1
        else rproc_start env res.2.1 res.2.2
    { rp1 with completion_done := true }

/-- The body of rproc_get after __find_rproc_by_name has returned the
record: lock, try_module_get (failure returns NULL untouched), count++;
when the prior count was nonzero return the handle at once; otherwise
init_completion, require a firmware name, issue the asynchronous fetch, set
the state to RPROC_LOADING; on either first-user failure complete_all,
module_put and undo the increment, returning NULL. -/
def rproc_get_core (env : Env) (rp : Rproc) : GetResult :=
  if env.module_get_ok = false then { rp := rp, handle := false }
  else if rp.count ≠ 0 then
    { rp := { rp with count := rp.count + 1, owner_refs := rp.owner_refs + 1 }
      handle := true }
  else
    let rp1 :=
      { rp with count := 1, owner_refs := rp.owner_refs + 1, completion_done := false }
    let failed :=
      { rp1 with completion_done := true, owner_refs := rp1.owner_refs - 1, count := 0 }
    match rp.firmware with
    | none => { rp := failed, handle := false }
    | some _ =>
      if env.request_fw_ok then
        { rp := { rp1 with state := RState.loading }, handle := true }
      else
        { rp := failed, handle := false }

/-- rproc_put: a count of 0 is an asymmetric put (ret = -EINVAL, nothing
else happens); otherwise wait for the load completion, lock (ret becomes 0),
count--, and when the count is still nonzero go to out — where module_put
runs because ret is 0.  On the last release the trace buffers are unmapped
and cleared; if the state is RPROC_RUNNING and the backend stop fails, the
error is logged and the function jumps to out with ret nonzero, skipping
both the OFFLINE transition and module_put; otherwise the state becomes
RPROC_OFFLINE and module_put runs. -/
def rproc_put (env : Env) (rp : Rproc) : PutResult :=
  if rp.count = 0 then { rp := rp, module_released := false }
  else
    let rp1 := { rp with count := rp.count - 1 }
    if rp1.count ≠ 0 then
      { rp := { rp1 with owner_refs := rp1.owner_refs - 1 }
        module_released := true }
    else
      let rp2 := { rp1 with trace_buf0 := none, trace_buf1 := none }
      if rp2.state = RState.running ∧ env.stop ≠ 0 then
        { rp := rp2, module_released := false }
      else
        { rp := { rp2 with state := RState.offline, owner_refs := rp2.owner_refs - 1 }
          module_released := true }

/-- __find_rproc_by_name over the registry list. -/
def find_rproc_by_name (l : List Rproc) (n : String) : Option Rproc :=
  l.find? fun r => r.name == n

/-- list_del of the first record with the given name. -/
def removeByName : List Rproc → String → List Rproc
  | [], _ => []
  | r :: rest, n => if r.name == n then rest else r :: removeByName rest n

/-- rproc_unregister: find the record by name (-EINVAL when absent), remove
its debugfs dir, unlink it from the registry and free it.  There is no
refcount or state check. -/
def rproc_unregister (l : List Rproc) (n : String) : Int × List Rproc :=
  match find_rproc_by_name l n with
  | none => (-EINVAL, l)
  | some _ => (0, removeByName l n)

/-- An environment in which every external collaborator succeeds. -/
def envOK : Env :=
  { ioremap := fun _ _ => some 1, start := fun _ => 0, stop := 0,
    module_get_ok := true, request_fw_ok := true }

/-- An environment whose backend stop op fails. -/
def envStopFail : Env :=
  { ioremap := fun _ _ => some 1, start := fun _ => 0, stop := -19,
    module_get_ok := true, request_fw_ok := true }

/-- A freshly registered processor record (state OFFLINE, count 0). -/
def rp0 : Rproc :=
  { name := "p0", memory_maps := none, firmware := some "p0-fw",
    count := 0, state := RState.offline, trace_buf0 := none,
    trace_buf1 := none, trace_len0 := 0, trace_len1 := 0,
    completion_done := false, owner_refs := 0 }

/-- rp0 as rproc_get left it while its asynchronous load is in flight. -/
def rpLoading : Rproc :=
  { rp0 with count := 1, owner_refs := 1, state := RState.loading }

/-- rp0 with both trace slots already bound. -/
def rpBoth : Rproc :=
  { rp0 with trace_buf0 := some 7, trace_buf1 := some 8, trace_len0 := 64, trace_len1 := 64 }

/-- rp0 running with two users. -/
def rpTwo : Rproc :=
  { rp0 with count := 2, owner_refs := 2, state := RState.running, completion_done := true }

/-- rp0 running with one user and a bound trace buffer. -/
def rpRun : Rproc :=
  { rp0 with count := 1, owner_refs := 1, state := RState.running, trace_buf0 := some 5, trace_len0 := 64, completion_done := true }

/-- rp0 held by one user (a load in flight), as seen by unregister. -/
def rpBusy : Rproc :=
  { rp0 with count := 1, owner_refs := 1, state := RState.loading }

/-- rp0 with no firmware name configured. -/
def rpNoFw : Rproc := { rp0 with firmware := none }

/-- A resource section with two BOOTADDR entries, da 1 then da 2. -/
def twoBoot : List Nat := encodeRsc 5 1 0 0 0 ++ encodeRsc 5 2 0 0 0

/-- A one-row address map: device page 4096..4111 backed at 8192. -/
def mapsW : List MemEntry := [{ da := 4096, pa := 8192, size := 16 }]

/-- A firmware image that is only a bad magic: 12 bytes of 0x58 ('X'). -/
def badMagicImg : List Nat := List.replicate 12 88

/-- A section area: one TEXT section declaring len 2 with only 1 payload
byte present (17 bytes in total). -/
def secTrunc : List Nat := u32le 1 ++ u64le 0 ++ u32le 2 ++ [9]

/-- A section area: one TEXT section declaring len 1 with exactly 1 payload
byte present (17 bytes in total). -/
def secOK : List Nat := u32le 1 ++ u64le 0 ++ u32le 1 ++ [9]

/-- A resource section holding one TRACE entry (da 0, len 4). -/
def thirdTrace : List Nat := encodeRsc 4 0 0 4 0

/-- A resource section holding one BOOTADDR entry with da 7. -/
def oneBoot : List Nat := encodeRsc 5 7 0 0 0

/-- The resource loop at any iteration bound returns immediately when fewer
than one entry's worth of bytes remains. -/
lemma rscLoop_exit (fuel : Nat) (env : Env) (rp : Rproc) (bytes : List Nat)
    (len b : Nat) (h : len < 76) :
    handleRscLoop fuel env rp bytes len b = (0, rp, b) := by
  cases fuel with
  | zero => rfl
  | succ n =>
    simp only [handleRscLoop]
    rw [if_pos h]

/-- One unfolding step of the resource loop when at least one entry's worth
of bytes remains. -/
lemma rscLoop_succ (fuel : Nat) (env : Env) (rp : Rproc) (bytes : List Nat)
    (len b : Nat) (h : ¬len < 76) :
    handleRscLoop (fuel + 1) env rp bytes len b =
      (let rsc := parseRsc bytes
       let step : Int × Rproc × Nat :=
         if rsc.rtype = 4 then
           let tr := rproc_handle_trace_rsc env rp rsc
           (tr.1, tr.2, b)
         else if rsc.rtype = 5 then (0, rp, rsc.da)
         else (0, rp, b)
       if step.1 ≠ 0 then step
       else
         handleRscLoop fuel env step.2.1 (bytes.drop 76) (len - 76)
           step.2.2) := by
  simp only [handleRscLoop]
  rw [if_neg h]

/-- The section loop at any iteration bound returns immediately when at most
a section header's worth of bytes remains. -/
lemma processLoop_exit (fuel : Nat) (env : Env) (rp : Rproc)
    (bytes : List Nat) (left : Int) (b : Nat) (h : left ≤ 16) :
    processFwLoop fuel env rp bytes left b = (0, rp, b) := by
  cases fuel with
  | zero => rfl
  | succ n =>
    simp only [processFwLoop]
    rw [if_neg (by omega)]

/-- daLookup agrees with the specification's first-match translation on maps
whose rows are sentinel-free, do not wrap in u64, and whose translated
ranges fit in the 32-bit physical address. -/
lemma daLookup_eq_spec (da : Nat) (maps : List MemEntry)
    (h : ∀ e ∈ maps,
      e.size ≠ 0 ∧ e.da + e.size < 2 ^ 64 ∧ e.pa + e.size ≤ 2 ^ 32) :
    daLookup maps da = translate_spec maps da := by
  induction maps with
  | nil => simp [daLookup, translate_spec]
  | cons me rest ih =>
    obtain ⟨hs, hwrap, hfit⟩ := h me (by simp)
    have hrest := fun e he => h e (List.mem_cons_of_mem _ he)
    by_cases hc : me.da ≤ da ∧ da < me.da + me.size
    · have h1 : (me.da + me.size) % 2 ^ 64 = me.da + me.size :=
        Nat.mod_eq_of_lt hwrap
      have h2 : me.pa + (da - me.da) < 2 ^ 32 := by omega
      have hpm :
          (decide (me.da ≤ da) && decide (da < me.da + me.size)) = true := by
        simp [hc.1, hc.2]
      simp only [daLookup, translate_spec, List.find?]
      rw [if_neg hs, h1, if_pos hc, Nat.mod_eq_of_lt h2, hpm]
      rfl
    · have h1 : ¬(me.da ≤ da ∧ da < (me.da + me.size) % 2 ^ 64) := by
        rw [Nat.mod_eq_of_lt hwrap]; exact hc
      have hpm :
          (decide (me.da ≤ da) && decide (da < me.da + me.size)) = false := by
        by_cases hA : me.da ≤ da
        · have hB : ¬da < me.da + me.size := fun hB => hc ⟨hA, hB⟩
          simp [hA, hB]
        · simp [hA]
      simp only [daLookup, translate_spec, List.find?]
      rw [if_neg hs, if_neg h1, hpm]
      simpa [translate_spec] using ih hrest

/-- The iteration bound of the resource loop is irrelevant once it is at
least `len`: the loop always exits through its own length test first. -/
lemma rscLoop_fuel (fuel : Nat) :
    ∀ len, len ≤ fuel → ∀ env rp bytes b,
      handleRscLoop fuel env rp bytes len b =
        handleRscLoop len env rp bytes len b := by
  induction fuel using Nat.strong_induction_on with
  | _ fuel ih =>
    intro len hlen env rp bytes b
    by_cases h76 : len < 76
    · rw [rscLoop_exit fuel env rp bytes len b h76,
        rscLoop_exit len env rp bytes len b h76]
    · obtain ⟨f, rfl⟩ : ∃ f, fuel = f + 1 := ⟨fuel - 1, by omega⟩
      obtain ⟨m, rfl⟩ : ∃ m, len = m + 1 := ⟨len - 1, by omega⟩
      simp only [handleRscLoop]
      rw [if_neg h76, if_neg h76]
      split_ifs <;>
        first
          | rfl
          | rw [ih f (by omega) (m + 1 - 76) (by omega),
              ih m (by omega) (m + 1 - 76) (by omega)]

/-- The trace handler never touches count, state or the completion flag,
and never unbinds a bound trace0 slot. -/
lemma trace_preserves (env : Env) (rp : Rproc) (rsc : FwResource) :
    (rproc_handle_trace_rsc env rp rsc).2.count = rp.count ∧
    (rproc_handle_trace_rsc env rp rsc).2.state = rp.state ∧
    (rproc_handle_trace_rsc env rp rsc).2.completion_done =
      rp.completion_done ∧
    (rp.trace_buf0.isSome = true →
      (rproc_handle_trace_rsc env rp rsc).2.trace_buf0.isSome = true) := by
  unfold rproc_handle_trace_rsc
  cases hda : rproc_da_to_pa rp.memory_maps rsc.da with
  | none => simp [hda]
  | some pa =>
    cases hio : env.ioremap pa rsc.len with
    | none =>
      by_cases hb : rp.trace_buf0.isSome ∧ rp.trace_buf1.isSome <;>
        simp [hda, hio, hb]
    | some ptr =>
      by_cases hb : rp.trace_buf0.isSome ∧ rp.trace_buf1.isSome
      · simp [hda, hio, hb]
      · by_cases h0 : rp.trace_buf0.isNone <;> simp [hda, hio, hb, h0]

/-- The resource loop never touches count, state or the completion flag,
and never unbinds a bound trace0 slot. -/
lemma rscLoop_preserves (fuel : Nat) :
    ∀ env rp bytes len b,
      (handleRscLoop fuel env rp bytes len b).2.1.count = rp.count ∧
      (handleRscLoop fuel env rp bytes len b).2.1.state = rp.state ∧
      (handleRscLoop fuel env rp bytes len b).2.1.completion_done =
        rp.completion_done ∧
      (rp.trace_buf0.isSome = true →
        (handleRscLoop fuel env rp bytes len b).2.1.trace_buf0.isSome =
          true) := by
  induction fuel with
  | zero => exact fun env rp bytes len b => ⟨rfl, rfl, rfl, fun h => h⟩
  | succ n ih =>
    intro env rp bytes len b
    simp only [handleRscLoop]
    by_cases h76 : len < 76
    · rw [if_pos h76]; exact ⟨rfl, rfl, rfl, fun h => h⟩
    · rw [if_neg h76]
      by_cases h4 : (parseRsc bytes).rtype = 4
      · simp only [if_pos h4]
        obtain ⟨tc, ts, td, tm⟩ := trace_preserves env rp (parseRsc bytes)
        split_ifs with hr
        · exact ⟨tc, ts, td, fun h => tm h⟩
        · obtain ⟨ic, is', id', im⟩ :=
            ih env (rproc_handle_trace_rsc env rp (parseRsc bytes)).2
              (bytes.drop 76) (len - 76) b
          exact ⟨ic.trans tc, is'.trans ts, id'.trans td,
            fun h => im (tm h)⟩
      · simp only [if_neg h4]
        by_cases h5 : (parseRsc bytes).rtype = 5
        · simp only [if_pos h5]
          split_ifs with hr
          · exact absurd rfl hr
          · exact ih env rp (bytes.drop 76) (len - 76) (parseRsc bytes).da
        · simp only [if_neg h5]
          split_ifs with hr
          · exact absurd rfl hr
          · exact ih env rp (bytes.drop 76) (len - 76) b

/-- The section loop never touches count, state or the completion flag, and
never unbinds a bound trace0 slot. -/
lemma processLoop_preserves (fuel : Nat) :
    ∀ env rp bytes left b,
      (processFwLoop fuel env rp bytes left b).2.1.count = rp.count ∧
      (processFwLoop fuel env rp bytes left b).2.1.state = rp.state ∧
      (processFwLoop fuel env rp bytes left b).2.1.completion_done =
        rp.completion_done ∧
      (rp.trace_buf0.isSome = true →
        (processFwLoop fuel env rp bytes left b).2.1.trace_buf0.isSome =
          true) := by
  induction fuel with
  | zero => exact fun env rp bytes left b => ⟨rfl, rfl, rfl, fun h => h⟩
  | succ n ih =>
    intro env rp bytes left b
    simp only [processFwLoop]
    by_cases hl : 16 < left
    · rw [if_pos hl]
      by_cases htr : left - 16 < (readLE 4 (bytes.drop 12) : Int)
      · rw [if_pos htr]; exact ⟨rfl, rfl, rfl, fun h => h⟩
      · rw [if_neg htr]
        cases hda : rproc_da_to_pa rp.memory_maps (readLE 8 (bytes.drop 4))
          with
        | none => simp [hda]
        | some pa =>
          simp only [hda]
          cases hio : env.ioremap pa (readLE 4 (bytes.drop 12)) with
          | none => simp [hio]
          | some ptr =>
            simp only [hio]
            by_cases h0 : readLE 4 bytes = 0
            · simp only [if_pos h0, rproc_handle_resources]
              obtain ⟨rc, rs, rd, rm⟩ :=
                rscLoop_preserves (readLE 4 (bytes.drop 12)) env rp
                  ((bytes.drop 16).take (readLE 4 (bytes.drop 12)))
                  (readLE 4 (bytes.drop 12)) b
              split_ifs with hr
              · exact ⟨rc, rs, rd, fun h => rm h⟩
              · obtain ⟨ic, is', id', im⟩ :=
                  ih env _ (bytes.drop (16 + readLE 4 (bytes.drop 12))) _ _
                exact ⟨ic.trans rc, is'.trans rs, id'.trans rd,
                  fun h => im (rm h)⟩
            · simp only [if_neg h0]
              split_ifs with hr
              · exact absurd rfl hr
              · exact ih env rp (bytes.drop (16 + readLE 4 (bytes.drop 12)))
                  (left - 16 - (readLE 4 (bytes.drop 12) : Int)) b
    · rw [if_neg hl]; exact ⟨rfl, rfl, rfl, fun h => h⟩

/-- rproc_start never touches count, the completion flag or the trace
bindings, and changes the state only to RUNNING (on backend success). -/
lemma start_fields (env : Env) (rp : Rproc) (b : Nat) :
    (rproc_start env rp b).count = rp.count ∧
    (rproc_start env rp b).completion_done = rp.completion_done ∧
    (rproc_start env rp b).trace_buf0 = rp.trace_buf0 ∧
    ((rproc_start env rp b).state = rp.state ∨
      (rproc_start env rp b).state = RState.running) := by
  unfold rproc_start
  split_ifs <;> simp

/-- Unfolding of rproc_load_fw on a present firmware blob. -/
lemma load_fw_some (env : Env) (data : List Nat) (rp : Rproc) :
    rproc_load_fw env (some data) rp =
      { (if data.length < 12 then rp
         else if data.take 4 ≠ [82, 80, 82, 67] then rp
         else
           if (rproc_process_fw env rp
               (data.drop (12 + readLE 4 (data.drop 8)))
               ((data.length : Int) - 12 - (readLE 4 (data.drop 8) : Int))
               0).1 ≠ 0 then
             (rproc_process_fw env rp (data.drop (12 + readLE 4 (data.drop 8)))
               ((data.length : Int) - 12 - (readLE 4 (data.drop 8) : Int))
               0).2.1
           else
             rproc_start env
               (rproc_process_fw env rp
                 (data.drop (12 + readLE 4 (data.drop 8)))
                 ((data.length : Int) - 12 - (readLE 4 (data.drop 8) : Int))
                 0).2.1
               (rproc_process_fw env rp
                 (data.drop (12 + readLE 4 (data.drop 8)))
                 ((data.length : Int) - 12 - (readLE 4 (data.drop 8) : Int))
                 0).2.2) with
        completion_done := true } := rfl

/-- C1 (corrected): a failed asynchronous load signals the completion but is
not terminal for the acquisition — rproc_load_fw never changes the refcount,
never clears a bound trace slot, and changes the state only to RUNNING on
full success; on every failure path the state and refcount are left exactly
as they were (LOADING / 1 for an in-flight first acquire).  The rewind to
refcount 0 and OFFLINE happens only later, inside rproc_put. -/
theorem c1_amended (env : Env) (fw : Option (List Nat)) (rp : Rproc) :
    (rproc_load_fw env fw rp).completion_done = true ∧
    (rproc_load_fw env fw rp).count = rp.count ∧
    ((rproc_load_fw env fw rp).state = rp.state ∨
      (rproc_load_fw env fw rp).state = RState.running) ∧
    (rp.trace_buf0.isSome = true →
      (rproc_load_fw env fw rp).trace_buf0.isSome = true) := by
  cases fw with
  | none => exact ⟨rfl, rfl, Or.inl rfl, fun h => h⟩
  | some data =>
    obtain ⟨pc, ps, pd, pm⟩ :=
      processLoop_preserves
        ((data.length : Int) - 12 - (readLE 4 (data.drop 8) : Int)).toNat
        env rp (data.drop (12 + readLE 4 (data.drop 8)))
        ((data.length : Int) - 12 - (readLE 4 (data.drop 8) : Int)) 0
    obtain ⟨sc, sd, sb, ss⟩ :=
      start_fields env
        (rproc_process_fw env rp (data.drop (12 + readLE 4 (data.drop 8)))
          ((data.length : Int) - 12 - (readLE 4 (data.drop 8) : Int)) 0).2.1
        (rproc_process_fw env rp (data.drop (12 + readLE 4 (data.drop 8)))
          ((data.length : Int) - 12 - (readLE 4 (data.drop 8) : Int)) 0).2.2
    rw [load_fw_some]
    refine ⟨rfl, ?_, ?_, ?_⟩
    · split_ifs with h1 h2 h3
      · rfl
      · rfl
      · exact pc
      · exact sc.trans pc
    · split_ifs with h1 h2 h3
      · exact Or.inl rfl
      · exact Or.inl rfl
      · exact Or.inl ps
      · rcases ss with hs | hs
        · exact Or.inl (hs.trans ps)
        · exact Or.inr hs
    · split_ifs with h1 h2 h3
      · exact fun h => h
      · exact fun h => h
      · exact fun h => pm h
      · intro h
        rw [sb]
        exact pm h

/-- C1 witness: the amended statement at a concrete bad-magic image and a
record with a bound trace slot. -/
theorem c1_witness :
    (rproc_load_fw envOK (some badMagicImg) rpBoth).completion_done = true ∧
    (rproc_load_fw envOK (some badMagicImg) rpBoth).count = rpBoth.count ∧
    ((rproc_load_fw envOK (some badMagicImg) rpBoth).state = rpBoth.state ∨
      (rproc_load_fw envOK (some badMagicImg) rpBoth).state =
        RState.running) ∧
    (rpBoth.trace_buf0.isSome = true →
      (rproc_load_fw envOK (some badMagicImg) rpBoth).trace_buf0.isSome =
        true) :=
  c1_amended envOK (some badMagicImg) rpBoth

/-- C1 counterexample: a bad-magic image fails the async load of a
first-user acquire (count 1, state LOADING); when the completion is
signaled the refcount is still 1 (not 0) and the state is still LOADING
(not OFFLINE), contradicting the claim. -/
theorem c1_counterexample :
    (rproc_load_fw envOK (some badMagicImg) rpLoading).completion_done =
      true ∧
    (rproc_load_fw envOK (some badMagicImg) rpLoading).count = 1 ∧
    (rproc_load_fw envOK (some badMagicImg) rpLoading).state =
      RState.loading := by decide

/-- C3 (corrected): rproc_put sets ret with the result of
mutex_lock_interruptible, so ret is 0 on the refcount>0 path and module_put
runs there too; and on a last release whose backend stop fails, ret is
nonzero and module_put is skipped.  module_put runs exactly on the puts
that found a nonzero count, except a last release of a RUNNING processor
whose stop op fails. -/
theorem c3_amended (env : Env) (rp : Rproc) :
    (rproc_put env rp).module_released = true ↔
      rp.count ≠ 0 ∧
        ¬(rp.count = 1 ∧ rp.state = RState.running ∧ env.stop ≠ 0) := by
  rcases hc : rp.count with _ | n
  · simp [rproc_put, hc]
  · rcases n with _ | m
    · by_cases h3 : rp.state = RState.running ∧ env.stop ≠ 0
      · simp [rproc_put, hc, h3.1, h3.2]
      · simp only [rproc_put, hc]
        norm_num
        rw [if_neg (show ¬(rp.state = RState.running ∧ ¬env.stop = 0) by
          tauto)]
        simp
        tauto
    · simp only [rproc_put, hc]
      norm_num

/-- C3 witness: the amended characterization at a concrete two-user put. -/
theorem c3_witness :
    (rproc_put envOK rpTwo).module_released = true ↔
      rpTwo.count ≠ 0 ∧
        ¬(rpTwo.count = 1 ∧ rpTwo.state = RState.running ∧
          envOK.stop ≠ 0) :=
  c3_amended envOK rpTwo

/-- C3 counterexample: a put that leaves the refcount at 1 (nonzero) does
release the module reference, contradicting the claim that only the last
release unpins the module. -/
theorem c3_counterexample :
    (rproc_put envOK rpTwo).rp.count = 1 ∧
    (rproc_put envOK rpTwo).module_released = true := by decide

/-- C4 (corrected): on the last release with state RUNNING and a failing
backend stop, the error is reported and rproc_put jumps to out — the state
stays RUNNING (the OFFLINE transition is skipped) and the module reference
is not released; the trace buffers were already unmapped and cleared. -/
theorem c4_amended (env : Env) (rp : Rproc) (hcount : rp.count = 1)
    (hstate : rp.state = RState.running) (hstop : env.stop ≠ 0) :
    (rproc_put env rp).rp.state = RState.running ∧
    (rproc_put env rp).rp.count = 0 ∧
    (rproc_put env rp).rp.trace_buf0 = none ∧
    (rproc_put env rp).rp.trace_buf1 = none ∧
    (rproc_put env rp).module_released = false := by
  unfold rproc_put
  rw [if_neg (by omega)]
  have h2 : ¬({ rp with count := rp.count - 1 }.count ≠ 0) := by
    simp [hcount]
  rw [if_neg h2, if_pos ⟨by simpa using hstate, hstop⟩]
  simp [hstate, hcount]

/-- C4 witness: the amended statement at a concrete running record and a
failing stop op. -/
theorem c4_witness :
    (rproc_put envStopFail rpRun).rp.state = RState.running ∧
    (rproc_put envStopFail rpRun).rp.count = 0 ∧
    (rproc_put envStopFail rpRun).rp.trace_buf0 = none ∧
    (rproc_put envStopFail rpRun).rp.trace_buf1 = none ∧
    (rproc_put envStopFail rpRun).module_released = false :=
  c4_amended envStopFail rpRun rfl rfl (by decide)

/-- C4 counterexample: last release, state RUNNING, stop fails — the state
remains RUNNING and does not transition to OFFLINE, contradicting the
claim. -/
theorem c4_counterexample :
    (rproc_put envStopFail rpRun).rp.state = RState.running ∧
    ¬(rproc_put envStopFail rpRun).rp.state = RState.offline := by decide

/-- C5 (corrected): rproc_unregister performs no refcount check at all —
whenever the name is found, the record is unlinked from the registry and
freed and 0 is returned, even while users hold the processor; only an
unknown name is rejected (with -EINVAL, not Busy). -/
theorem c5_amended (l : List Rproc) (n : String) (r : Rproc)
    (hfind : find_rproc_by_name l n = some r) :
    rproc_unregister l n = (0, removeByName l n) := by
  unfold rproc_unregister
  rw [hfind]

/-- C5 witness: the amended statement at a registry holding one busy
(count 1) record. -/
theorem c5_witness :
    rproc_unregister [rpBusy] "p0" = (0, removeByName [rpBusy] "p0") :=
  c5_amended [rpBusy] "p0" rpBusy (by decide)

/-- C5 counterexample: unregistering a processor with refcount 1 succeeds
(returns 0, not -EBUSY) and removes the record from the registry,
contradicting the claim that it is rejected with Busy and leaves the
registry unchanged. -/
theorem c5_counterexample :
    (rproc_unregister [rpBusy] "p0").1 = 0 ∧
    (rproc_unregister [rpBusy] "p0").1 ≠ -EBUSY ∧
    (rproc_unregister [rpBusy] "p0").2 = [] := by decide

/-- C9 (confirmed): the section loop runs only while strictly more than
sizeof(fw_section) = 16 bytes remain, so a section area that has exactly a
trailing 16-byte section header left (a final header with len 0 and no
payload) terminates the loop successfully, without parsing or processing
that final section: the record and boot address are returned untouched with
ret = 0. -/
theorem c9_trailing_header (env : Env) (rp : Rproc) (bytes : List Nat)
    (b : Nat) :
    rproc_process_fw env rp bytes 16 b = (0, rp, b) :=
  processLoop_exit _ _ _ _ _ _ (by norm_num)

/-- C9 witness: the trailing-header behavior at a concrete all-zero final
section header. -/
theorem c9_witness :
    rproc_process_fw envOK rp0 (List.replicate 16 0) 16 0 = (0, rp0, 0) :=
  c9_trailing_header envOK rp0 (List.replicate 16 0) 0

/-- C2 (corrected): a BOOTADDR entry always overwrites the recorded boot
address (the C code warns when one was already set, then assigns
`*bootaddr = rsc->da` unconditionally), and the loop continues with the
remaining entries — so the last BOOTADDR entry wins, not the first. -/
theorem c2_amended (env : Env) (rp : Rproc) (bytes : List Nat) (l b : Nat)
    (htype : (parseRsc bytes).rtype = 5) :
    rproc_handle_resources env rp bytes (l + 76) b =
      rproc_handle_resources env rp (bytes.drop 76) l (parseRsc bytes).da := by
  show handleRscLoop (l + 76) env rp bytes (l + 76) b =
    handleRscLoop l env rp (bytes.drop 76) l (parseRsc bytes).da
  have e76 : l + 76 = (l + 75) + 1 := rfl
  rw [e76]
  rw [rscLoop_succ (l + 75) env rp bytes (l + 75 + 1) b (by omega)]
  have h4 : ¬(parseRsc bytes).rtype = 4 := by rw [htype]; norm_num
  simp only [if_neg h4, if_pos htype]
  rw [if_neg (show ¬(0 : Int) ≠ 0 by decide)]
  have hsub : l + 75 + 1 - 76 = l := by omega
  rw [hsub]
  exact rscLoop_fuel (l + 75) l (by omega) env rp (bytes.drop 76)
    (parseRsc bytes).da

/-- C2 witness: the amended step equation at a concrete one-entry BOOTADDR
section (da 7). -/
theorem c2_witness :
    rproc_handle_resources envOK rp0 oneBoot 76 0 =
      rproc_handle_resources envOK rp0 (oneBoot.drop 76) 0 7 :=
  c2_amended envOK rp0 oneBoot 0 0 (by decide)

/-- C2 counterexample: a resource section with two BOOTADDR entries, da 1
then da 2, records 2 — the claim says the first entry (da 1) is kept and
later entries do not change the recorded address. -/
theorem c2_counterexample :
    (rproc_handle_resources envOK rp0 twoBoot 152 0).2.2 = 2 ∧
    ¬(rproc_handle_resources envOK rp0 twoBoot 152 0).2.2 = 1 := by decide

/-- C6 (confirmed): with both trace slots bound, handling a TRACE entry
whose device address translates fails with -EBUSY (the TooMany outcome) and
leaves the record unchanged, the resource loop aborts at that entry
(returning -EBUSY with the record and boot address untouched), and no trace
entry whatsoever can bind a third buffer — every trace handler outcome with
both slots bound is an error that leaves the record unchanged. -/
theorem c6_trace_limit (env : Env) (rp : Rproc) (bytes : List Nat)
    (l b pa : Nat) (h0 : rp.trace_buf0.isSome = true)
    (h1 : rp.trace_buf1.isSome = true)
    (htype : (parseRsc bytes).rtype = 4)
    (hpa : rproc_da_to_pa rp.memory_maps (parseRsc bytes).da = some pa) :
    rproc_handle_trace_rsc env rp (parseRsc bytes) = (-EBUSY, rp) ∧
    rproc_handle_resources env rp bytes (l + 76) b = (-EBUSY, rp, b) ∧
    ∀ rsc : FwResource, (rproc_handle_trace_rsc env rp rsc).1 ≠ 0 ∧
      (rproc_handle_trace_rsc env rp rsc).2 = rp := by
  have htrace :
      rproc_handle_trace_rsc env rp (parseRsc bytes) = (-EBUSY, rp) := by
    unfold rproc_handle_trace_rsc
    simp only [hpa]
    rw [if_pos ⟨h0, h1⟩]
  refine ⟨htrace, ?_, ?_⟩
  · show handleRscLoop (l + 76) env rp bytes (l + 76) b = _
    have e76 : l + 76 = (l + 75) + 1 := rfl
    rw [e76]
    rw [rscLoop_succ (l + 75) env rp bytes (l + 75 + 1) b (by omega)]
    simp only [if_pos htype, htrace]
    rw [if_pos (show (-EBUSY : Int) ≠ 0 by decide)]
  · intro rsc
    unfold rproc_handle_trace_rsc
    cases hda : rproc_da_to_pa rp.memory_maps rsc.da with
    | none => simp [hda, EINVAL]
    | some q => simp [hda, h0, h1, EBUSY]

/-- C6 witness: a third TRACE entry at a record with both slots bound. -/
theorem c6_witness :
    rproc_handle_resources envOK rpBoth thirdTrace 76 0 =
      (-EBUSY, rpBoth, 0) :=
  (c6_trace_limit envOK rpBoth thirdTrace 0 0 0 (by decide) (by decide)
    (by decide) (by decide)).2.1

/-- C7 (confirmed): address translation is the pure function of the spec —
identity mode succeeds returning da itself iff da fits in the 32-bit host
physical-address width (failing with -EINVAL otherwise), and map mode
returns entry.pa + (da - entry.da) for the first entry containing da,
failing when none matches; on well-formed maps (nonzero sizes, no u64
wrap, ranges fitting the physical width) it coincides exactly with the
spec-side first-match function. -/
theorem c7_address_translation (da : Nat) (maps : List MemEntry)
    (hwf : ∀ e ∈ maps,
      e.size ≠ 0 ∧ e.da + e.size < 2 ^ 64 ∧ e.pa + e.size ≤ 2 ^ 32) :
    (rproc_da_to_pa none da = some da ↔ da < 2 ^ 32) ∧
    (2 ^ 32 ≤ da → rproc_da_to_pa none da = none) ∧
    rproc_da_to_pa (some maps) da = translate_spec maps da := by
  refine ⟨⟨?_, ?_⟩, ?_, daLookup_eq_spec da maps hwf⟩
  · intro h
    by_contra hda
    have hnone : rproc_da_to_pa none da = none := by
      simp only [rproc_da_to_pa]
      rw [if_pos (by omega)]
    rw [hnone] at h
    cases h
  · intro h
    simp only [rproc_da_to_pa]
    rw [if_neg (by omega)]
  · intro h
    simp only [rproc_da_to_pa]
    rw [if_pos (by omega)]

/-- C7 witness: identity and map translation at da 4100 over the one-row
map 4096..4111 → 8192. -/
theorem c7_witness :
    (rproc_da_to_pa none 4100 = some 4100 ↔ 4100 < 2 ^ 32) ∧
    (2 ^ 32 ≤ 4100 → rproc_da_to_pa none 4100 = none) ∧
    rproc_da_to_pa (some mapsW) 4100 = translate_spec mapsW 4100 :=
  c7_address_translation 4100 mapsW (by decide)

/-- C8 (confirmed): inside the section loop, after the header is consumed
the code fails with -EINVAL (truncated image) exactly when the remaining
bytes `left - 16` are fewer than the declared len — a section whose len
exceeds the remainder is rejected before any translation or mapping, while
a (non-resource) section whose len equals the remainder exactly is accepted
and the loop completes successfully. -/
theorem c8_truncation_boundary (env : Env) (rp : Rproc) (bytes : List Nat)
    (left : Int) (b pa ptr : Nat) (hleft : 16 < left) :
    (left - 16 < (readLE 4 (bytes.drop 12) : Int) →
      rproc_process_fw env rp bytes left b = (-EINVAL, rp, b)) ∧
    ((readLE 4 (bytes.drop 12) : Int) = left - 16 →
      readLE 4 bytes ≠ 0 →
      rproc_da_to_pa rp.memory_maps (readLE 8 (bytes.drop 4)) = some pa →
      env.ioremap pa (readLE 4 (bytes.drop 12)) = some ptr →
      rproc_process_fw env rp bytes left b = (0, rp, b)) := by
  have hn : left.toNat = (left.toNat - 1) + 1 := by omega
  constructor
  · intro htr
    show processFwLoop left.toNat env rp bytes left b = _
    rw [hn]
    simp only [processFwLoop]
    rw [if_pos hleft, if_pos htr]
  · intro hlen htype hpa hio
    show processFwLoop left.toNat env rp bytes left b = _
    rw [hn]
    simp only [processFwLoop]
    rw [if_pos hleft, if_neg (by omega)]
    simp only [hpa, hio, if_neg htype]
    have hz : left - 16 - (readLE 4 (bytes.drop 12) : Int) = 0 := by omega
    rw [hz, processLoop_exit (left.toNat - 1) env rp
      (bytes.drop (16 + readLE 4 (bytes.drop 12))) 0 b (by norm_num)]
    simp

/-- C8 witness: both boundary behaviors at concrete 17-byte section areas —
declared len 2 against 1 remaining byte is truncated, declared len 1
against exactly 1 remaining byte is accepted. -/
theorem c8_witness :
    rproc_process_fw envOK rp0 secTrunc 17 0 = (-EINVAL, rp0, 0) ∧
    rproc_process_fw envOK rp0 secOK 17 0 = (0, rp0, 0) :=
  ⟨(c8_truncation_boundary envOK rp0 secTrunc 17 0 0 1 (by norm_num)).1
      (by decide),
   (c8_truncation_boundary envOK rp0 secOK 17 0 0 1 (by norm_num)).2
      (by decide) (by decide) (by decide) (by decide)⟩

/-- C10 (confirmed): a first-user rproc_get that fails after the refcount
increment — no firmware name, or request_firmware_nowait failing — undoes
the increment (count back to 0), signals the completion, drops the module
reference it took, leaves the state OFFLINE and the trace bindings
untouched, and returns NULL. -/
theorem c10_failed_first_get (env : Env) (rp : Rproc)
    (hmod : env.module_get_ok = true) (hcount : rp.count = 0)
    (hstate : rp.state = RState.offline)
    (hfail : rp.firmware = none ∨ env.request_fw_ok = false) :
    (rproc_get_core env rp).handle = false ∧
    (rproc_get_core env rp).rp.count = 0 ∧
    (rproc_get_core env rp).rp.completion_done = true ∧
    (rproc_get_core env rp).rp.owner_refs = rp.owner_refs ∧
    (rproc_get_core env rp).rp.state = RState.offline ∧
    (rproc_get_core env rp).rp.trace_buf0 = rp.trace_buf0 ∧
    (rproc_get_core env rp).rp.trace_buf1 = rp.trace_buf1 := by
  rcases hfail with hf | hf
  · simp [rproc_get_core, hmod, hcount, hf, hstate]
  · cases hfw : rp.firmware with
    | none => simp [rproc_get_core, hmod, hcount, hfw, hstate]
    | some f => simp [rproc_get_core, hmod, hcount, hfw, hf, hstate]

/-- C10 witness: the failed first acquire at a concrete record with no
firmware name configured. -/
theorem c10_witness :
    (rproc_get_core envOK rpNoFw).handle = false ∧
    (rproc_get_core envOK rpNoFw).rp.count = 0 ∧
    (rproc_get_core envOK rpNoFw).rp.completion_done = true ∧
    (rproc_get_core envOK rpNoFw).rp.owner_refs = rpNoFw.owner_refs ∧
    (rproc_get_core envOK rpNoFw).rp.state = RState.offline ∧
    (rproc_get_core envOK rpNoFw).rp.trace_buf0 = rpNoFw.trace_buf0 ∧
    (rproc_get_core envOK rpNoFw).rp.trace_buf1 = rpNoFw.trace_buf1 :=
  c10_failed_first_get envOK rpNoFw rfl rfl rfl (Or.inl rfl)
